import Mathlib

/-!
Verification development for the WoysaClub category parser
(src/adv_alg_03.py).

The program fetches per-category pages, extracts up to five article
records per page, and stores the results in a shared dictionary keyed by
category.  We give a shallow embedding of its pure core:

* a page is abstracted as the list of its `article` blocks in document
  order; each block optionally carries the text of its first `h2`
  (heading) and first `p` (paragraph) element — this is exactly the data
  `_parse_category` reads from the BeautifulSoup tree;
* the network is abstracted as a function `String → Option Page`
  (`none` models a request failure: connection error or a
  `raise_for_status` on a non-2xx response), the test double the spec
  calls for;
* the two concurrent modes are modelled as deterministic folds over the
  batches.  Within a batch each worker writes only its own key, so the
  final store content is independent of interleaving; the sequential
  fold computes that content.

Python raises `ZeroDivisionError` on `batch_size = 0` (from
`len(categories) // batch_size`), so theorems about the fetch entry
points carry the hypothesis `0 < batch_size`.
-/

namespace AdvAlg03

/-- Model of one `article` block of a parsed page: the stripped text of
its first nested `h2` element (if any) and of its first nested `p`
element (if any).  We keep the raw text here and apply trimming in
`_parse_category`, mirroring `.text.strip()` in the source. -/
structure ArticleBlock where
  h2 : Option String
  p : Option String
deriving DecidableEq

/-- An extracted article record, the dict
`{'title': ..., 'content': ...}` built by `_parse_category`. -/
structure ArticleRecord where
  title : String
  content : String
deriving DecidableEq

/-- A page is the list of its `article` blocks in document order. -/
abbrev Page := List ArticleBlock

/-- Embedding of `WoysaClubParser._parse_category` (src/adv_alg_03.py
lines 79-86): `soup.find_all('article', limit=5)` takes the first five
article blocks in document order; for each one the title is the stripped
`h2` text or the sentinel `'No title'`, and the content is the stripped
`p` text or `'No content'`. -/
def _parse_category (soup : Page) : List ArticleRecord :=
  (soup.take 5).map fun article =>
    { title := match article.h2 with
        | some t => t.trim
        | none => "No title",
      content := match article.p with
        | some c => c.trim
        | none => "No content" }

/-- Mutable state of a `WoysaClubParser` instance: the `data` dictionary
(category → extracted article list) and the `base_url` string. -/
structure ParserState where
  data : String → Option (List ArticleRecord)
  base_url : String

/-- Embedding of `WoysaClubParser._fetch_category_async`
(src/adv_alg_03.py lines 47-57).  `fetcher category = some page` models
a successful GET of `base_url/category`; the body then stores
`_parse_category page` under `category`.  `fetcher category = none`
models any exception (network failure or non-2xx status): the handler
prints and stores the empty list under `category`. -/
def _fetch_category_async (fetcher : String → Option Page)
    (st : ParserState) (category : String) : ParserState :=
  match fetcher category with
  | some page =>
      { st with data := fun k =>
          if k = category then some (_parse_category page) else st.data k }
  | none =>
      { st with data := fun k =>
          if k = category then some [] else st.data k }

/-- Embedding of `WoysaClubParser._fetch_category_sync`
(src/adv_alg_03.py lines 68-77): same logic as the async worker, with
`requests.get` in place of `aiohttp`; the abstract fetcher stands in for
either transport. -/
def _fetch_category_sync (fetcher : String → Option Page)
    (st : ParserState) (category : String) : ParserState :=
  match fetcher category with
  | some page =>
      { st with data := fun k =>
          if k = category then some (_parse_category page) else st.data k }
  | none =>
      { st with data := fun k =>
          if k = category then some [] else st.data k }

/-- Chunk sizes produced by `numpy.array_split` for a list of length `L`
split into `n` sections: `L % n` chunks of size `L / n + 1` followed by
`n - L % n` chunks of size `L / n`. -/
def splitSizes (L n : Nat) : List Nat :=
  List.replicate (L % n) (L / n + 1) ++ List.replicate (n - L % n) (L / n)

/-- Cut a list into consecutive chunks of the given sizes. -/
def takeChunks : List Nat → List α → List (List α)
  | [], _ => []
  | s :: ss, l => l.take s :: takeChunks ss (l.drop s)

/-- Embedding of `numpy.array_split(l, n)`: split `l` into `n`
consecutive sections as evenly as possible (larger sections first). -/
def array_split (l : List α) (n : Nat) : List (List α) :=
  takeChunks (splitSizes l.length n) l

/-- The batch list both fetch entry points build (src/adv_alg_03.py
lines 39 and 60):
`np.array_split(categories, max(1, len(categories) // batch_size))`. -/
def batches (categories : List String) (batch_size : Nat) :
    List (List String) :=
  array_split categories (max 1 (categories.length / batch_size))

/-- Embedding of `WoysaClubParser.fetch_data_async`
(src/adv_alg_03.py lines 38-45): for each batch, run one async worker
per category and gather them.  Each worker writes only its own key, so
the store content after the gather equals the sequential fold over the
batch; timing effects (the sleep between batches) are irrelevant to the
store. -/
def fetch_data_async (fetcher : String → Option Page)
    (st : ParserState) (categories : List String)
    (batch_size : Nat) : ParserState :=
  (batches categories batch_size).foldl
    (fun s batch => batch.foldl (_fetch_category_async fetcher) s) st

/-- Embedding of `WoysaClubParser.fetch_data_threaded`
(src/adv_alg_03.py lines 59-66): for each batch, map the sync worker
over the batch on a thread pool and collect the results.  As in the
async mode, workers touch distinct keys, so the resulting store equals
the sequential fold. -/
def fetch_data_threaded (fetcher : String → Option Page)
    (st : ParserState) (categories : List String)
    (batch_size : Nat) : ParserState :=
  (batches categories batch_size).foldl
    (fun s batch => batch.foldl (_fetch_category_sync fetcher) s) st

/-- The article list a worker stores for a category: the parsed page on
success, the empty list on failure. -/
def processResult (fetcher : String → Option Page) (category : String) :
    List ArticleRecord :=
  match fetcher category with
  | some page => _parse_category page
  | none => []

/-- State of a fresh `WoysaClubParser` after its first `__init__`
(src/adv_alg_03.py lines 31-36): empty `data` dict and the WoysaClub
base URL. -/
def initState : ParserState :=
  { data := fun _ => none, base_url := "https://woysa.club" }

/-- Embedding of constructing `WoysaClubParser()` (`__new__` plus the
guarded `__init__`, src/adv_alg_03.py lines 25-36).  The argument is the
class-level `_instance` slot; the result is the instance handed to the
caller together with the updated slot.  A first construction creates and
initialises the state; any later construction returns the existing state
untouched (the `_initialized` guard makes `__init__` a no-op). -/
def woysaClubParser (slot : Option ParserState) :
    ParserState × Option ParserState :=
  match slot with
  | none => (initState, some initState)
  | some st => (st, some st)

/-- One fetch call in either mode, for reasoning about arbitrary
sequences of calls against one shared parser state. -/
inductive FetchOp where
  | async (fetcher : String → Option Page)
      (categories : List String) (batch_size : Nat)
  | threaded (fetcher : String → Option Page)
      (categories : List String) (batch_size : Nat)

/-- Apply one fetch call to the parser state. -/
def runOp (st : ParserState) : FetchOp → ParserState
  | .async fetcher categories batch_size =>
      fetch_data_async fetcher st categories batch_size
  | .threaded fetcher categories batch_size =>
      fetch_data_threaded fetcher st categories batch_size

/-- Apply a sequence of fetch calls, left to right. -/
def runOps (ops : List FetchOp) (st : ParserState) : ParserState :=
  ops.foldl runOp st

/-- The spec's cap invariant on a store: no stored article list exceeds
five entries. -/
def StoreBounded (st : ParserState) : Prop :=
  ∀ k l, st.data k = some l → l.length ≤ 5

/-- Test double for the spec's example scenario: the fetch for
category `"c"` fails, every other category succeeds with a page
containing one article block (a bare block, so its record carries the
two sentinel strings). -/
def scenarioFetcher : String → Option Page :=
  fun category =>
    if category = "c" then none
    else some [{ h2 := none, p := none }]

/-- The single record extracted from the scenario page. -/
def scenarioRecord : ArticleRecord :=
  { title := "No title", content := "No content" }

/-! ### Helper lemmas -/

theorem takeChunks_length (ss : List Nat) (l : List α) :
    (takeChunks ss l).length = ss.length := by
  induction ss generalizing l with
  | nil => rfl
  | cons s ss ih => simp [takeChunks, ih]

theorem takeChunks_flatten (ss : List Nat) (l : List α) :
    (takeChunks ss l).flatten = l.take ss.sum := by
  induction ss generalizing l with
  | nil => simp [takeChunks]
  | cons s ss ih =>
      simp only [takeChunks, List.flatten_cons, ih, List.sum_cons,
        List.take_add]

theorem splitSizes_sum (L n : Nat) (hn : 0 < n) :
    (splitSizes L n).sum = L := by
  have hle : L % n * (L / n) ≤ n * (L / n) :=
    Nat.mul_le_mul_right _ (Nat.le_of_lt (Nat.mod_lt _ hn))
  have hmod : L % n + n * (L / n) = L := Nat.mod_add_div _ _
  simp only [splitSizes, List.sum_append, List.sum_replicate, smul_eq_mul,
    Nat.mul_succ, Nat.sub_mul]
  omega

theorem splitSizes_length (L n : Nat) (hn : 0 < n) :
    (splitSizes L n).length = n := by
  have := Nat.mod_lt L hn
  simp only [splitSizes, List.length_append, List.length_replicate]
  omega

theorem array_split_length (l : List α) (n : Nat) (hn : 0 < n) :
    (array_split l n).length = n := by
  rw [array_split, takeChunks_length, splitSizes_length _ _ hn]

theorem array_split_flatten (l : List α) (n : Nat) (hn : 0 < n) :
    (array_split l n).flatten = l := by
  rw [array_split, takeChunks_flatten, splitSizes_sum _ _ hn,
    List.take_length]

theorem batches_length (categories : List String) (batch_size : Nat) :
    (batches categories batch_size).length =
      max 1 (categories.length / batch_size) :=
  array_split_length _ _ (Nat.le_max_left _ _)

theorem batches_flatten (categories : List String) (batch_size : Nat) :
    (batches categories batch_size).flatten = categories :=
  array_split_flatten _ _ (Nat.le_max_left _ _)

theorem fetch_category_steps_eq :
    _fetch_category_sync = _fetch_category_async := rfl

theorem _fetch_category_async_data (fetcher : String → Option Page)
    (st : ParserState) (category k : String) :
    (_fetch_category_async fetcher st category).data k =
      if k = category then some (processResult fetcher category)
      else st.data k := by
  cases hfc : fetcher category <;>
    simp [_fetch_category_async, processResult, hfc]

theorem _fetch_category_async_base_url (fetcher : String → Option Page)
    (st : ParserState) (category : String) :
    (_fetch_category_async fetcher st category).base_url = st.base_url := by
  cases hfc : fetcher category <;> simp [_fetch_category_async, hfc]

theorem foldl_fetch_async_data (fetcher : String → Option Page)
    (st : ParserState) (l : List String) (k : String) :
    (l.foldl (_fetch_category_async fetcher) st).data k =
      if k ∈ l then some (processResult fetcher k) else st.data k := by
  induction l generalizing st with
  | nil => rfl
  | cons c cs ih =>
      simp only [List.foldl_cons, ih, _fetch_category_async_data,
        List.mem_cons]
      by_cases hcs : k ∈ cs
      · simp [hcs]
      · by_cases hc : k = c <;> simp [hc, hcs]

theorem foldl_fetch_async_base_url (fetcher : String → Option Page)
    (st : ParserState) (l : List String) :
    (l.foldl (_fetch_category_async fetcher) st).base_url = st.base_url := by
  induction l generalizing st with
  | nil => rfl
  | cons c cs ih =>
      simp only [List.foldl_cons, ih, _fetch_category_async_base_url]

theorem fetch_data_async_data (fetcher : String → Option Page)
    (st : ParserState) (categories : List String) (batch_size : Nat)
    (k : String) :
    (fetch_data_async fetcher st categories batch_size).data k =
      if k ∈ categories then some (processResult fetcher k)
      else st.data k := by
  rw [fetch_data_async, ← List.foldl_flatten, batches_flatten,
    foldl_fetch_async_data]

theorem fetch_data_async_base_url (fetcher : String → Option Page)
    (st : ParserState) (categories : List String) (batch_size : Nat) :
    (fetch_data_async fetcher st categories batch_size).base_url =
      st.base_url := by
  rw [fetch_data_async, ← List.foldl_flatten, batches_flatten,
    foldl_fetch_async_base_url]

theorem fetch_modes_eq (fetcher : String → Option Page)
    (st : ParserState) (categories : List String) (batch_size : Nat) :
    fetch_data_async fetcher st categories batch_size =
      fetch_data_threaded fetcher st categories batch_size := rfl

theorem processResult_length (fetcher : String → Option Page)
    (category : String) :
    (processResult fetcher category).length ≤ 5 := by
  rw [processResult]
  cases fetcher category with
  | none => simp
  | some page =>
      simp only [_parse_category, List.length_map, List.length_take]
      exact min_le_left _ _

theorem fetch_data_async_bounded (fetcher : String → Option Page)
    (st : ParserState) (categories : List String) (batch_size : Nat)
    (hst : StoreBounded st) :
    StoreBounded (fetch_data_async fetcher st categories batch_size) := by
  intro k l hkl
  rw [fetch_data_async_data] at hkl
  by_cases hk : k ∈ categories
  · simp only [hk, if_pos] at hkl
    cases hkl
    exact processResult_length _ _
  · simp only [hk, if_neg, not_false_iff] at hkl
    exact hst k l hkl

theorem runOp_bounded (st : ParserState) (op : FetchOp)
    (hst : StoreBounded st) : StoreBounded (runOp st op) := by
  cases op with
  | async fetcher categories batch_size =>
      exact fetch_data_async_bounded _ _ _ _ hst
  | threaded fetcher categories batch_size =>
      rw [runOp, ← fetch_modes_eq]
      exact fetch_data_async_bounded _ _ _ _ hst

theorem runOps_bounded (ops : List FetchOp) (st : ParserState)
    (hst : StoreBounded st) : StoreBounded (runOps ops st) := by
  induction ops generalizing st with
  | nil => exact hst
  | cons op ops ih => exact ih _ (runOp_bounded _ _ hst)

theorem batches_nil (batch_size : Nat) :
    batches [] batch_size = [[]] := by
  simp [batches, array_split, splitSizes, takeChunks, List.replicate]

/-! ### Claims -/

/-- C1: for every category list of length L and every (positive) batch
size B, a fetch call in either mode partitions the list into exactly
`max 1 (L / B)` batches, and the batches concatenate back to the input
list, so every input category lands in exactly one batch, none dropped
or duplicated, with any remainder folded into the existing batches
rather than forming an extra undersized batch.  Both fetch modes
dispatch exactly this `batches` list. -/
theorem C1_batch_partition (categories : List String) (batch_size : Nat)
    ( _hb : 0 < batch_size) :
    (batches categories batch_size).length =
      max 1 (categories.length / batch_size) ∧
    (batches categories batch_size).flatten = categories :=
  ⟨batches_length categories batch_size, batches_flatten categories batch_size⟩

/-- Witness for C1 at categories of length 5 and batch size 2. -/
theorem C1_batch_partition_witness :
    0 < 2 ∧
    ((batches ["a", "b", "c", "d", "e"] 2).length =
        max 1 ((["a", "b", "c", "d", "e"] : List String).length / 2) ∧
      (batches ["a", "b", "c", "d", "e"] 2).flatten =
        ["a", "b", "c", "d", "e"]) :=
  ⟨by decide, C1_batch_partition ["a", "b", "c", "d", "e"] 2 (by decide)⟩

/-- C2: for the same input categories, the same batch size and the same
abstract fetcher (the fixed category-to-page mapping standing in for the
network), the cooperative-concurrent mode and the worker-pool mode leave
identical contents in the result store: the resulting parser states are
equal. -/
theorem C2_mode_equivalence (fetcher : String → Option Page)
    (st : ParserState) (categories : List String) (batch_size : Nat) :
    fetch_data_async fetcher st categories batch_size =
      fetch_data_threaded fetcher st categories batch_size :=
  fetch_modes_eq fetcher st categories batch_size

/-- C3 counterexample: for categories `["a","b","c","d","e"]` with batch
size 2 the code builds `max 1 (5 / 2) = 2` batches,
`[["a","b","c"], ["d","e"]]`, not the 3 batches
`[["a","b"], ["c","d"], ["e"]]` the claim states. -/
theorem C3_counterexample :
    batches ["a", "b", "c", "d", "e"] 2 = [["a", "b", "c"], ["d", "e"]] ∧
    (batches ["a", "b", "c", "d", "e"] 2).length ≠ 3 := by
  constructor
  · rfl
  · decide

/-- C3 amended: for categories `["a","b","c","d","e"]` with batch size
2 the scheduler dispatches exactly 2 batches, `[["a","b","c"],
["d","e"]]`; and when the fetch for `"c"` fails while every other
category succeeds with a one-article page, the final store maps each of
a, b, d, e to a one-record list and c to the empty list. -/
theorem C3_amended_scenario :
    batches ["a", "b", "c", "d", "e"] 2 = [["a", "b", "c"], ["d", "e"]] ∧
    (batches ["a", "b", "c", "d", "e"] 2).length = 2 ∧
    (fetch_data_async scenarioFetcher initState
        ["a", "b", "c", "d", "e"] 2).data "a" = some [scenarioRecord] ∧
    (fetch_data_async scenarioFetcher initState
        ["a", "b", "c", "d", "e"] 2).data "b" = some [scenarioRecord] ∧
    (fetch_data_async scenarioFetcher initState
        ["a", "b", "c", "d", "e"] 2).data "c" = some [] ∧
    (fetch_data_async scenarioFetcher initState
        ["a", "b", "c", "d", "e"] 2).data "d" = some [scenarioRecord] ∧
    (fetch_data_async scenarioFetcher initState
        ["a", "b", "c", "d", "e"] 2).data "e" = some [scenarioRecord] := by
  refine ⟨rfl, rfl, ?_, ?_, ?_, ?_, ?_⟩ <;> decide

/-- C4: a per-category fetch failure is caught inside the worker and
converted into an empty list stored under that category, in both modes;
and when one category in a batch fails, every other category of that
batch still receives its normal parsed result.  (The workers are total
state transformers: no error escapes to the scheduler.) -/
theorem C4_failure_isolation (fetcher : String → Option Page)
    (st : ParserState) (batch : List String) (c d : String) (page : Page)
    (hcfail : fetcher c = none) (hc : c ∈ batch) (hd : d ∈ batch)
    (hdok : fetcher d = some page) :
    (batch.foldl (_fetch_category_async fetcher) st).data c = some [] ∧
    (batch.foldl (_fetch_category_async fetcher) st).data d =
      some (_parse_category page) ∧
    (batch.foldl (_fetch_category_sync fetcher) st).data c = some [] ∧
    (batch.foldl (_fetch_category_sync fetcher) st).data d =
      some (_parse_category page) := by
  rw [fetch_category_steps_eq]
  refine ⟨?_, ?_, ?_, ?_⟩ <;>
    simp [foldl_fetch_async_data, hc, hd, processResult, hcfail, hdok]

/-- Witness for C4: in the batch `["a", "c"]` under the scenario
fetcher, `"c"` fails and ends with the empty list while `"a"` still
receives its parsed one-record page. -/
theorem C4_failure_isolation_witness :
    scenarioFetcher "c" = none ∧
    scenarioFetcher "a" = some [{ h2 := none, p := none }] ∧
    ((["a", "c"].foldl (_fetch_category_async scenarioFetcher)
        initState).data "c" = some [] ∧
      (["a", "c"].foldl (_fetch_category_async scenarioFetcher)
        initState).data "a" =
        some (_parse_category [{ h2 := none, p := none }]) ∧
      (["a", "c"].foldl (_fetch_category_sync scenarioFetcher)
        initState).data "c" = some [] ∧
      (["a", "c"].foldl (_fetch_category_sync scenarioFetcher)
        initState).data "a" =
        some (_parse_category [{ h2 := none, p := none }])) :=
  ⟨rfl, rfl,
    C4_failure_isolation scenarioFetcher initState ["a", "c"] "c" "a"
      [{ h2 := none, p := none }] rfl (by decide) (by decide) rfl⟩

/-- C5: for every list of categories (the non-empty case included),
after a fetch call in either mode every input category is a key of the
result store, bound to the worker's result for it: the parsed page on
success or the empty list on failure. -/
theorem C5_every_category_stored (fetcher : String → Option Page)
    (st : ParserState) (categories : List String) (batch_size : Nat)
    ( _hb : 0 < batch_size) (c : String) (hc : c ∈ categories) :
    (fetch_data_async fetcher st categories batch_size).data c =
      some (processResult fetcher c) ∧
    (fetch_data_threaded fetcher st categories batch_size).data c =
      some (processResult fetcher c) := by
  rw [← fetch_modes_eq]
  constructor <;> simp [fetch_data_async_data, hc]

/-- Witness for C5 at the scenario input, category `"d"`. -/
theorem C5_every_category_stored_witness :
    0 < 2 ∧ "d" ∈ ["a", "b", "c", "d", "e"] ∧
    ((fetch_data_async scenarioFetcher initState
        ["a", "b", "c", "d", "e"] 2).data "d" =
      some (processResult scenarioFetcher "d") ∧
    (fetch_data_threaded scenarioFetcher initState
        ["a", "b", "c", "d", "e"] 2).data "d" =
      some (processResult scenarioFetcher "d")) :=
  ⟨by decide, by decide,
    C5_every_category_stored scenarioFetcher initState
      ["a", "b", "c", "d", "e"] 2 (by decide) "d" (by decide)⟩

/-- C6: the extractor returns at most 5 records for every page, however
many article blocks the page contains; consequently any sequence of
fetch calls (either mode) preserves the store invariant that no stored
list exceeds length 5. -/
theorem C6_cap_invariant :
    (∀ soup : Page, (_parse_category soup).length ≤ 5) ∧
    (∀ ops st, StoreBounded st → StoreBounded (runOps ops st)) := by
  constructor
  · intro soup
    simp only [_parse_category, List.length_map, List.length_take]
    exact min_le_left _ _
  · intro ops st hst
    exact runOps_bounded ops st hst

/-- Witness for C6: a page with 7 article blocks still yields at most 5
records, and a concrete fetch sequence from the fresh state keeps the
store bounded. -/
theorem C6_cap_invariant_witness :
    (_parse_category (List.replicate 7 ⟨none, none⟩)).length ≤ 5 ∧
    StoreBounded
      (runOps [FetchOp.async scenarioFetcher ["a", "c"] 2,
        FetchOp.threaded scenarioFetcher ["d"] 3] initState) :=
  ⟨C6_cap_invariant.1 _,
    C6_cap_invariant.2 _ initState (fun _ _ h => Option.noConfusion h)⟩

/-- C7: every record the extractor produces comes from an article block
of the page; its title is the stripped heading text, or the sentinel
string when the block has no heading, and its content is the stripped
paragraph text, or the sentinel string when the block has no paragraph.
(The extractor is a total function: malformed blocks degrade to the
placeholders, they never fail.) -/
theorem C7_placeholder_substitution (soup : Page) (r : ArticleRecord)
    (hr : r ∈ _parse_category soup) :
    ∃ article ∈ soup,
      (article.h2 = none → r.title = "No title") ∧
      (∀ t, article.h2 = some t → r.title = t.trim) ∧
      (article.p = none → r.content = "No content") ∧
      (∀ c, article.p = some c → r.content = c.trim) := by
  rw [_parse_category, List.mem_map] at hr
  obtain ⟨article, hmem, rfl⟩ := hr
  refine ⟨article, List.take_subset _ _ hmem, ?_, ?_, ?_, ?_⟩
  · intro h; simp [h]
  · intro t ht; simp [ht]
  · intro h; simp [h]
  · intro c hc; simp [hc]

/-- Witness for C7 on a one-block page whose block has neither heading
nor paragraph. -/
theorem C7_placeholder_substitution_witness :
    scenarioRecord ∈ _parse_category [⟨none, none⟩] ∧
    ∃ article ∈ ([⟨none, none⟩] : Page),
      (article.h2 = none → scenarioRecord.title = "No title") ∧
      (∀ t, article.h2 = some t → scenarioRecord.title = t.trim) ∧
      (article.p = none → scenarioRecord.content = "No content") ∧
      (∀ c, article.p = some c → scenarioRecord.content = c.trim) :=
  ⟨by decide,
    C7_placeholder_substitution [⟨none, none⟩] scenarioRecord (by decide)⟩

/-- C8: constructing the facade a second time hands back the state the
first construction made (construction of an existing instance is the
identity), and a fetch call in either mode never changes the base URL
and only adds or overwrites entries for the categories it was given:
every other key keeps its previous value, so a second fetch with new
categories extends the store rather than replacing or resetting it. -/
theorem C8_singleton_persistence (slot : Option ParserState) :
    (woysaClubParser (woysaClubParser slot).2).1 =
      (woysaClubParser slot).1 ∧
    (∀ st, woysaClubParser (some st) = (st, some st)) ∧
    (∀ fetcher st categories batch_size,
      (fetch_data_async fetcher st categories batch_size).base_url =
        st.base_url) ∧
    (∀ fetcher st categories batch_size,
      (fetch_data_threaded fetcher st categories batch_size).base_url =
        st.base_url) ∧
    (∀ fetcher st categories batch_size k, k ∉ categories →
      (fetch_data_async fetcher st categories batch_size).data k =
        st.data k) ∧
    (∀ fetcher st categories batch_size k, k ∉ categories →
      (fetch_data_threaded fetcher st categories batch_size).data k =
        st.data k) ∧
    (∀ fetcher st categories batch_size c, c ∈ categories →
      (fetch_data_async fetcher st categories batch_size).data c =
        some (processResult fetcher c)) := by
  refine ⟨?_, fun st => rfl, ?_, ?_, ?_, ?_, ?_⟩
  · cases slot <;> rfl
  · intro fetcher st categories batch_size
    exact fetch_data_async_base_url _ _ _ _
  · intro fetcher st categories batch_size
    rw [← fetch_modes_eq]
    exact fetch_data_async_base_url _ _ _ _
  · intro fetcher st categories batch_size k hk
    rw [fetch_data_async_data, if_neg hk]
  · intro fetcher st categories batch_size k hk
    rw [← fetch_modes_eq, fetch_data_async_data, if_neg hk]
  · intro fetcher st categories batch_size c hc
    rw [fetch_data_async_data, if_pos hc]

/-- Witness for C8: construction from the empty slot, then a fetch of
`["a"]`, leaves the entry at the unrelated key `"z"` untouched in both
modes. -/
theorem C8_singleton_persistence_witness :
    (woysaClubParser (woysaClubParser none).2).1 =
      (woysaClubParser none).1 ∧
    (fetch_data_async scenarioFetcher initState ["a"] 3).data "z" =
      initState.data "z" ∧
    (fetch_data_threaded scenarioFetcher initState ["a"] 3).data "z" =
      initState.data "z" :=
  ⟨(C8_singleton_persistence none).1,
    (C8_singleton_persistence none).2.2.2.2.1 scenarioFetcher initState
      ["a"] 3 "z" (by decide),
    (C8_singleton_persistence none).2.2.2.2.2.1 scenarioFetcher initState
      ["a"] 3 "z" (by decide)⟩

/-- C9: a fetch call with an empty category list leaves the parser state
exactly as it was, in both modes. -/
theorem C9_empty_noop (fetcher : String → Option Page) (st : ParserState)
    (batch_size : Nat) ( _hb : 0 < batch_size) :
    fetch_data_async fetcher st [] batch_size = st ∧
    fetch_data_threaded fetcher st [] batch_size = st := by
  have h : fetch_data_async fetcher st [] batch_size = st := by
    simp only [fetch_data_async, batches_nil]
    rfl
  rw [← fetch_modes_eq]
  exact ⟨h, h⟩

/-- Witness for C9 at batch size 3 on the fresh state. -/
theorem C9_empty_noop_witness :
    0 < 3 ∧
    (fetch_data_async scenarioFetcher initState [] 3 = initState ∧
      fetch_data_threaded scenarioFetcher initState [] 3 = initState) :=
  ⟨by decide, C9_empty_noop scenarioFetcher initState 3 (by decide)⟩

/-- C10: a worker processing category `c` (either mode, success or
failure branch) writes only the store entry at `c`: every other key
keeps its value, and the base URL is unchanged. -/
theorem C10_worker_frame (fetcher : String → Option Page)
    (st : ParserState) (category k : String) (hk : k ≠ category) :
    (_fetch_category_async fetcher st category).data k = st.data k ∧
    (_fetch_category_sync fetcher st category).data k = st.data k ∧
    (_fetch_category_async fetcher st category).base_url = st.base_url ∧
    (_fetch_category_sync fetcher st category).base_url = st.base_url := by
  rw [fetch_category_steps_eq]
  exact ⟨by rw [_fetch_category_async_data, if_neg hk],
    by rw [_fetch_category_async_data, if_neg hk],
    _fetch_category_async_base_url _ _ _,
    _fetch_category_async_base_url _ _ _⟩

/-- Witness for C10, once on the failing category `"c"` and once on the
succeeding category `"a"`, observing the unrelated key `"z"`. -/
theorem C10_worker_frame_witness :
    (("z" : String) ≠ "c" ∧ ("z" : String) ≠ "a") ∧
    ((_fetch_category_async scenarioFetcher initState "c").data "z" =
        initState.data "z" ∧
      (_fetch_category_sync scenarioFetcher initState "c").data "z" =
        initState.data "z" ∧
      (_fetch_category_async scenarioFetcher initState "c").base_url =
        initState.base_url ∧
      (_fetch_category_sync scenarioFetcher initState "c").base_url =
        initState.base_url) ∧
    ((_fetch_category_async scenarioFetcher initState "a").data "z" =
        initState.data "z" ∧
      (_fetch_category_sync scenarioFetcher initState "a").data "z" =
        initState.data "z" ∧
      (_fetch_category_async scenarioFetcher initState "a").base_url =
        initState.base_url ∧
      (_fetch_category_sync scenarioFetcher initState "a").base_url =
        initState.base_url) :=
  ⟨⟨by decide, by decide⟩,
    C10_worker_frame scenarioFetcher initState "c" "z" (by decide),
    C10_worker_frame scenarioFetcher initState "a" "z" (by decide)⟩

end AdvAlg03
